import Mathlib

/-!
Verification of the command-line parsing core of nsjail (`src/cmdline.cc`).

The development shallowly embeds the directive-to-specification translator:
the `nsjconf_t` configuration object, the colon splitter
`cmdlineSplitStrByColon`, the resource-limit resolver `parseRLimit`, the
option tables `custom_opts` / `deprecated_opts`, and the directive loop plus
finalization of `parseArgs`.  External collaborators (libc, `log.cc`,
`caps.cc`, `user.cc`, `mnt.cc`, `config.cc`, `sandbox.cc`) are modelled as an
explicit `Host` oracle; where the behaviour of such a collaborator decides a
property, the model follows the natural-language specification and says so in
its doc comment.
-/

set_option maxHeartbeats 2000000
set_option maxRecDepth 4096

namespace NsjailCmdline

/-- Execution modes of the jail (enum `nsjail_mode_t`). -/
inductive Mode where
  | LISTEN_TCP
  | STANDALONE_ONCE
  | STANDALONE_EXECVE
  | STANDALONE_RERUN
deriving DecidableEq, Repr, Inhabited

/-- Directory classification of a mount point (`mnt::NS_DIR_*`). -/
inductive NsDir where
  | YES
  | MAYBE
deriving DecidableEq, Repr, Inhabited

/-- Log levels used by `nsjconf->loglevel`. -/
inductive LogLevel where
  | DEBUG
  | INFO
  | WARNING
  | FATAL
deriving DecidableEq, Repr, Inhabited

/-- One mount or symlink operation (`struct mounts_t`), with the fields the
command-line parser supplies to `mnt::addMountPtTail` / `mnt::addMountPtHead`. -/
structure MountEntry where
  src : Option String
  dst : String
  fstype : String
  options : String
  flags : Nat
  isDir : NsDir
  mandatory : Bool
  isSymlink : Bool
deriving DecidableEq, Repr, Inhabited

/-- One inside:outside:count identity mapping (`struct idmap_t`). -/
structure IdMapEntry where
  inside_id : Nat
  outside_id : Nat
  count : Nat
  is_newidmap : Bool
deriving DecidableEq, Repr, Inhabited

/-- The configuration object built by `parseArgs` (`struct nsjconf_t`),
with the fields initialized and mutated in `src/cmdline.cc`. -/
structure Conf where
  exec_file : Option String
  use_execveat : Bool
  exec_fd : Int
  argv : Option (List String)
  hostname : String
  cwd : String
  chroot : String
  port : Nat
  bindhost : String
  log_fd : Int
  loglevel : LogLevel
  logfile : Option String
  daemonize : Bool
  tlimit : Int
  max_cpus : Nat
  keep_env : Bool
  keep_caps : Bool
  disable_no_new_privs : Bool
  rl_as : Nat
  rl_core : Nat
  rl_cpu : Nat
  rl_fsize : Nat
  rl_nofile : Nat
  rl_nproc : Nat
  rl_stack : Nat
  personality : Nat
  clone_newnet : Bool
  clone_newuser : Bool
  clone_newns : Bool
  clone_newpid : Bool
  clone_newipc : Bool
  clone_newuts : Bool
  clone_newcgroup : Bool
  mode : Mode
  is_root_rw : Bool
  is_silent : Bool
  skip_setsid : Bool
  max_conns_per_ip : Nat
  tmpfs_size : Nat
  mount_proc : Bool
  proc_path : String
  is_proc_rw : Bool
  cgroup_mem_mount : String
  cgroup_mem_parent : String
  cgroup_mem_max : Nat
  cgroup_pids_mount : String
  cgroup_pids_parent : String
  cgroup_pids_max : Nat
  cgroup_net_cls_mount : String
  cgroup_net_cls_parent : String
  cgroup_net_cls_classid : Nat
  cgroup_cpu_mount : String
  cgroup_cpu_parent : String
  cgroup_cpu_ms_per_sec : Nat
  iface_no_lo : Bool
  iface_vs : Option String
  iface_vs_ip : String
  iface_vs_nm : String
  iface_vs_gw : String
  kafel_file_path : Option String
  kafel_string : Option String
  orig_uid : Nat
  num_cpus : Int
  openfds : List Int
  envs : List String
  caps : List Int
  uids : List IdMapEntry
  gids : List IdMapEntry
  mountpts : List MountEntry
deriving DecidableEq, Repr, Inhabited

/-- State threaded through the directive loop of `parseArgs`: the
configuration object plus the function-static buffer `cmdlineTmpfsSz`
(rewritten by `--tmpfs_size` via `snprintf`). -/
structure PState where
  conf : Conf
  tmpfsSz : String
deriving DecidableEq, Repr, Inhabited

/-- How a parse attempt ends without producing a configuration:
`usage` = `cmdlineUsage` displayed and `nullptr` returned,
`helpExit` = `-h` (usage displayed, `exit(0)`),
`fail` = `nullptr` returned after a diagnostic,
`fatal` = `LOG_F`/`PLOG_F` aborts the process. -/
inductive PErr where
  | usage
  | helpExit
  | fail
  | fatal
deriving DecidableEq, Repr, Inhabited

/-! ## Models of libc string and number routines -/

/-- ASCII lower-casing, as C `tolower` in the default locale. -/
def clower (c : Char) : Char :=
  if 'A' ≤ c ∧ c ≤ 'Z' then Char.ofNat (c.toNat + 32) else c

/-- Model of `strcasecmp(a, b) == 0`. -/
def strcaseEq (a b : String) : Bool :=
  a.data.map clower == b.data.map clower

/-- C `isspace` characters skipped by `strtoull`. -/
def cIsSpace (c : Char) : Bool :=
  c = ' ' ∨ c = '\t' ∨ c = '\n' ∨ c = '\x0b' ∨ c = '\x0c' ∨ c = '\x0d'

/-- Value of one digit character, up to base 16. -/
def digitVal (c : Char) : Option Nat :=
  if c.isDigit then some (c.toNat - 48)
  else if 'a' ≤ c ∧ c ≤ 'f' then some (c.toNat - 87)
  else if 'A' ≤ c ∧ c ≤ 'F' then some (c.toNat - 55)
  else none

/-- Accumulate the longest prefix of digits valid in `base`, as `strtoull`
does (mathematical value, no clamping yet). -/
def digitsVal (base : Nat) : List Char → Nat → Nat
  | [], acc => acc
  | c :: cs, acc =>
    match digitVal c with
    | some d => if d < base then digitsVal base cs (acc * base + d) else acc
    | none => acc

/-- Magnitude parsed by `strtoull(s, NULL, 0)` after whitespace and sign:
base detection of `0x` / leading `0` / decimal. -/
def strtoullMag : List Char → Nat
  | '0' :: 'x' :: rest =>
    match digitVal (rest.headD ' ') with
    | some d => if d < 16 then digitsVal 16 rest 0 else 0
    | none => 0
  | '0' :: 'X' :: rest =>
    match digitVal (rest.headD ' ') with
    | some d => if d < 16 then digitsVal 16 rest 0 else 0
    | none => 0
  | '0' :: rest => digitsVal 8 rest 0
  | cs => digitsVal 10 cs 0

/-- Model of `strtoull(s, NULL, 0)`: returns the `uint64_t` result and
whether the conversion overflowed (`errno == ERANGE`). -/
def strtoullC (s : String) : Nat × Bool :=
  let cs := (s.data).dropWhile cIsSpace
  let signed : Bool × List Char :=
    match cs with
    | '-' :: r => (true, r)
    | '+' :: r => (false, r)
    | _ => (false, cs)
  let v := strtoullMag signed.2
  let over := decide (2 ^ 64 ≤ v)
  let u := if 2 ^ 64 ≤ v then 2 ^ 64 - 1 else v
  let r := if signed.1 then (2 ^ 64 - u % 2 ^ 64) % 2 ^ 64 else u
  (r, over)

/-- Truncated view of `strtoull(s, NULL, 0)` used by unsigned assignments. -/
def strtoul0 (s : String) : Nat := (strtoullC s).1

/-- Model of `strtol(s, NULL, 0)` (64-bit `long`): clamps to
`[-2^63, 2^63 - 1]`. -/
def strtol0 (s : String) : Int :=
  let cs := (s.data).dropWhile cIsSpace
  let signed : Bool × List Char :=
    match cs with
    | '-' :: r => (true, r)
    | '+' :: r => (false, r)
    | _ => (false, cs)
  let v : Int := (strtoullMag signed.2 : Nat)
  if signed.1 then max (-(2 ^ 63)) (-v) else min (2 ^ 63 - 1) v

/-- C cast of a `long` to `int` (wrap modulo `2^32`, signed). -/
def toInt32 (z : Int) : Int :=
  let m := z % 2 ^ 32
  if m < 2 ^ 31 then m else m - 2 ^ 32

/-- Modelled from the spec: `util::isANumber` (`util.cc`, not under `src/`).
Section 4.4: any non-keyword token "must be a non-negative integer";
non-numeric tokens fail. -/
def isANumber (s : String) : Bool :=
  !s.isEmpty && s.data.all Char.isDigit

/-! ## The colon splitter -/

/-- Split at the first `:` of a character list; the second component is
`some rest` when a colon was found, `none` otherwise. -/
def splitColon : List Char → List Char × Option (List Char)
  | [] => ([], none)
  | c :: cs =>
    if c = ':' then ([], some cs)
    else
      let p := splitColon cs
      (c :: p.1, p.2)

/-- Pure rendering of `cmdlineSplitStrByColon` (`src/cmdline.cc:301`): the
first component is the input truncated at the first `:` (the in-place
mutation of the C code), the second is the suffix after that `:`, or `none`
when no colon occurs (the C function returns `NULL`). -/
def cmdlineSplitStrByColon (s : String) : String × Option String :=
  let p := splitColon s.data
  (String.mk p.1, p.2.map String.mk)

/-- Application of `cmdlineSplitStrByColon` to a possibly-`NULL` pointer (the C
function returns `NULL` on `NULL` input). -/
def splitOpt : Option String → Option String × Option String
  | none => (none, none)
  | some s =>
    let p := cmdlineSplitStrByColon s
    (some p.1, p.2)

/-! ## Constants -/

def MS_RDONLY : Nat := 1
def MS_BIND : Nat := 4096
def MS_REC : Nat := 16384
def MS_PRIVATE : Nat := 262144

def ADDR_NO_RANDOMIZE : Nat := 0x0040000
def MMAP_PAGE_ZERO : Nat := 0x0100000
def ADDR_COMPAT_LAYOUT : Nat := 0x0200000
def READ_IMPLIES_EXEC : Nat := 0x0400000
def ADDR_LIMIT_3GB : Nat := 0x8000000

def RLIMIT_CPU : Nat := 0
def RLIMIT_FSIZE : Nat := 1
def RLIMIT_STACK : Nat := 3
def RLIMIT_CORE : Nat := 4
def RLIMIT_NPROC : Nat := 6
def RLIMIT_NOFILE : Nat := 7
def RLIMIT_AS : Nat := 9

def RLIM64_INFINITY : Nat := 2 ^ 64 - 1

/-! ## The host oracle

External collaborators of the translator, made explicit. -/

/-- Environment in which `parseArgs` runs: libc queries and the external
collaborator entry points called from `src/cmdline.cc`. -/
structure Host where
  /-- Result of `getuid()`: real uid of the invoking process. -/
  getuid : Nat
  /-- Result of `getgid()`: real gid of the invoking process. -/
  getgid : Nat
  /-- Result of `getrlimit64(res, &cur)`: `(rlim_cur, rlim_max)` for the kind, or
  `none` when the syscall fails. -/
  getrlimit64 : Nat → Option (Nat × Nat)
  /-- Resolver `caps::nameToVal`: numeric capability value, `-1` for unknown names. -/
  capsNameToVal : String → Int
  /-- Modelled from the spec: identity-token resolution inside
  `user::parseId` (`user.cc`, not under `src/`): a uid token resolves "to a
  valid numeric/identity value resolvable on the host" or fails. -/
  resolveUid : String → Option Nat
  /-- Modelled from the spec: gid-token resolution inside `user::parseId`. -/
  resolveGid : String → Option Nat
  /-- Modelled from the spec: the single-token policy of the identity
  builder — whether a bare inside-id token "can itself be used as both"
  inside and outside id (section 4.3). -/
  selfMapOk : String → Bool
  /-- Whether `access(path, R_OK) == 0` for the seccomp policy file. -/
  accessR : String → Bool
  /-- Success of `log::initLogFile(nsjconf)`. -/
  initLogOk : Conf → Bool
  /-- Effect of `config::parseFile(nsjconf, path)` (`config.cc`, not under `src/`):
  an opaque transformation of the configuration, `none` on failure. -/
  configParse : Conf → String → Option Conf
  /-- Success of `mnt::addMountPtHead` and `mnt::addMountPtTail` for a given entry (`mnt.cc`, not
  under `src/`; the spec's Mount Plan Builder constructs the entry and
  inserts it, `parseArgs` only checks the boolean outcome). -/
  mntAddOk : MountEntry → Bool
  /-- Success of `sandbox::preparePolicy(nsjconf)`: per spec section 4.6 the
  specification is immutable at this point, so only success is observable. -/
  preparePolicy : Conf → Bool
  /-- Result of `open(exec_file, O_RDONLY|O_PATH|O_CLOEXEC)`: fd or failure. -/
  openExec : String → Option Int
  /-- Result of `sysconf(_SC_NPROCESSORS_ONLN)`. -/
  numCpus : Int

/-! ## The resource-limit resolver -/

/-- Model of `parseRLimit` (`src/cmdline.cc:271`): `inf` short-circuits to
`RLIM64_INFINITY`; otherwise the current limits are queried (failure is
fatal), `def`/`soft` and `max`/`hard` return them, and any other token must
be numeric and is multiplied by `mul` in `uint64_t` arithmetic. -/
def parseRLimit (host : Host) (res : Nat) (optarg : String) (mul : Nat) :
    Option Nat :=
  if strcaseEq optarg "inf" then some RLIM64_INFINITY
  else
    match host.getrlimit64 res with
    | none => none
    | some cur =>
      if strcaseEq optarg "def" || strcaseEq optarg "soft" then some cur.1
      else if strcaseEq optarg "max" || strcaseEq optarg "hard" then
        some cur.2
      else if isANumber optarg = false then none
      else
        let r := strtoullC optarg
        let val := r.1 * mul % 2 ^ 64
        if val = 2 ^ 64 - 1 ∧ r.2 = true then none else some val

/-! ## The identity map builder -/

/-- Append an id-map entry to the uid or gid list. -/
def appendIdMap (conf : Conf) (is_gid : Bool) (e : IdMapEntry) : Conf :=
  if is_gid then { conf with gids := conf.gids ++ [e] }
  else { conf with uids := conf.uids ++ [e] }

/-- Modelled from the spec: `user::parseId` (`user.cc`, not under `src/`),
section 4.3: resolve the inside and outside tokens on the host and build
the `IdMapEntry` that is appended to the user or group list; an absent
outside token fails unless the single-token policy allows the inside token
to be used as both ids.  `none` is the builder's failure
(`InvalidIdentity`). -/
def userParseId (host : Host) (i_id : String) (o_id : Option String)
    (count : Nat) (is_gid : Bool) (is_newidmap : Bool) :
    Option IdMapEntry :=
  let resolve := if is_gid then host.resolveGid else host.resolveUid
  match o_id with
  | some o =>
    match resolve i_id, resolve o with
    | some i, some ou => some ⟨i, ou, count, is_newidmap⟩
    | _, _ => none
  | none =>
    match resolve i_id with
    | some i =>
      if host.selfMapOk i_id then some ⟨i, i, count, is_newidmap⟩
      else none
    | none => none

/-! ## Mount entries constructed by the parser -/

/-- Entry appended by `-R` (read-only bind mount, `src/cmdline.cc:638`). -/
def mountR (a : String) : MountEntry :=
  let p := cmdlineSplitStrByColon a
  { src := some p.1, dst := p.2.getD p.1, fstype := "", options := ""
    flags := MS_BIND ||| MS_REC ||| MS_PRIVATE ||| MS_RDONLY
    isDir := .MAYBE, mandatory := true, isSymlink := false }

/-- Entry appended by `-B` (read-write bind mount, `src/cmdline.cc:649`). -/
def mountB (a : String) : MountEntry :=
  let p := cmdlineSplitStrByColon a
  { src := some p.1, dst := p.2.getD p.1, fstype := "", options := ""
    flags := MS_BIND ||| MS_REC ||| MS_PRIVATE
    isDir := .MAYBE, mandatory := true, isSymlink := false }

/-- Entry appended by `-T` (tmpfs mount, `src/cmdline.cc:660`), with the
current contents of the `cmdlineTmpfsSz` buffer as options. -/
def mountT (sz : String) (a : String) : MountEntry :=
  { src := none, dst := a, fstype := "tmpfs", options := sz, flags := 0
    isDir := .YES, mandatory := true, isSymlink := false }

/-- Implicit proc entry appended at finalization (`src/cmdline.cc:762`). -/
def procEntry (conf : Conf) : MountEntry :=
  { src := none, dst := conf.proc_path, fstype := "proc", options := ""
    flags := if conf.is_proc_rw then 0 else MS_RDONLY
    isDir := .YES, mandatory := true, isSymlink := false }

/-- Implicit root bind mount inserted at the head when a chroot was given
(`src/cmdline.cc:769`). -/
def rootBindEntry (conf : Conf) : MountEntry :=
  { src := some conf.chroot, dst := "/", fstype := "", options := ""
    flags :=
      if conf.is_root_rw then MS_BIND ||| MS_REC ||| MS_PRIVATE
      else MS_BIND ||| MS_REC ||| MS_PRIVATE ||| MS_RDONLY
    isDir := .YES, mandatory := true, isSymlink := false }

/-- Implicit tmpfs root inserted at the head when no chroot was given
(`src/cmdline.cc:779`). -/
def rootTmpfsEntry (conf : Conf) : MountEntry :=
  { src := none, dst := "/", fstype := "tmpfs", options := ""
    flags := if conf.is_root_rw then 0 else MS_RDONLY
    isDir := .YES, mandatory := true, isSymlink := false }

/-- The root entry the finalizer inserts at position 0: a chroot bind mount,
or a tmpfs at `/` when no chroot was given. -/
def rootEntryOf (conf : Conf) : MountEntry :=
  if conf.chroot = "" then rootTmpfsEntry conf else rootBindEntry conf

/-! ## The option tables

`struct custom_option custom_opts[]` and `deprecated_opts[]`
(`src/cmdline.cc:64` and `:149`): long name, whether the option takes a
required argument, and the `getopt` value (short-option character code or a
numeric directive code).  Help descriptions are omitted except where a claim
needs them (the deprecation notice uses only the replacement's name). -/

structure COpt where
  name : String
  reqArg : Bool
  val : Nat
deriving DecidableEq, Repr, Inhabited

def custom_opts : List COpt := [
  ⟨"help", false, 104⟩,
  ⟨"mode", true, 77⟩,
  ⟨"config", true, 67⟩,
  ⟨"exec_file", true, 120⟩,
  ⟨"execute_fd", false, 0x0607⟩,
  ⟨"chroot", true, 99⟩,
  ⟨"rw", false, 0x601⟩,
  ⟨"user", true, 117⟩,
  ⟨"group", true, 103⟩,
  ⟨"hostname", true, 72⟩,
  ⟨"cwd", true, 68⟩,
  ⟨"port", true, 112⟩,
  ⟨"bindhost", true, 0x604⟩,
  ⟨"max_conns_per_ip", true, 105⟩,
  ⟨"log", true, 108⟩,
  ⟨"log_fd", true, 76⟩,
  ⟨"time_limit", true, 116⟩,
  ⟨"max_cpus", true, 0x508⟩,
  ⟨"daemon", false, 100⟩,
  ⟨"verbose", false, 118⟩,
  ⟨"quiet", false, 113⟩,
  ⟨"really_quiet", false, 81⟩,
  ⟨"keep_env", false, 101⟩,
  ⟨"env", true, 69⟩,
  ⟨"keep_caps", false, 0x0501⟩,
  ⟨"cap", true, 0x0509⟩,
  ⟨"silent", false, 0x0502⟩,
  ⟨"skip_setsid", false, 0x0504⟩,
  ⟨"pass_fd", true, 0x0505⟩,
  ⟨"disable_no_new_privs", false, 0x0507⟩,
  ⟨"rlimit_as", true, 0x0201⟩,
  ⟨"rlimit_core", true, 0x0202⟩,
  ⟨"rlimit_cpu", true, 0x0203⟩,
  ⟨"rlimit_fsize", true, 0x0204⟩,
  ⟨"rlimit_nofile", true, 0x0205⟩,
  ⟨"rlimit_nproc", true, 0x0206⟩,
  ⟨"rlimit_stack", true, 0x0207⟩,
  ⟨"persona_addr_compat_layout", false, 0x0301⟩,
  ⟨"persona_mmap_page_zero", false, 0x0302⟩,
  ⟨"persona_read_implies_exec", false, 0x0303⟩,
  ⟨"persona_addr_limit_3gb", false, 0x0304⟩,
  ⟨"persona_addr_no_randomize", false, 0x0305⟩,
  ⟨"disable_clone_newnet", false, 78⟩,
  ⟨"disable_clone_newuser", false, 0x0402⟩,
  ⟨"disable_clone_newns", false, 0x0403⟩,
  ⟨"disable_clone_newpid", false, 0x0404⟩,
  ⟨"disable_clone_newipc", false, 0x0405⟩,
  ⟨"disable_clone_newuts", false, 0x0406⟩,
  ⟨"disable_clone_newcgroup", false, 0x0407⟩,
  ⟨"uid_mapping", true, 85⟩,
  ⟨"gid_mapping", true, 71⟩,
  ⟨"bindmount_ro", true, 82⟩,
  ⟨"bindmount", true, 66⟩,
  ⟨"tmpfsmount", true, 84⟩,
  ⟨"tmpfs_size", true, 0x0602⟩,
  ⟨"disable_proc", false, 0x0603⟩,
  ⟨"proc_path", true, 0x0605⟩,
  ⟨"proc_rw", false, 0x0606⟩,
  ⟨"seccomp_policy", true, 80⟩,
  ⟨"seccomp_string", true, 0x0901⟩,
  ⟨"cgroup_mem_max", true, 0x0801⟩,
  ⟨"cgroup_mem_mount", true, 0x0802⟩,
  ⟨"cgroup_mem_parent", true, 0x0803⟩,
  ⟨"cgroup_pids_max", true, 0x0811⟩,
  ⟨"cgroup_pids_mount", true, 0x0812⟩,
  ⟨"cgroup_pids_parent", true, 0x0813⟩,
  ⟨"cgroup_net_cls_classid", true, 0x0821⟩,
  ⟨"cgroup_net_cls_mount", true, 0x0822⟩,
  ⟨"cgroup_net_cls_parent", true, 0x0823⟩,
  ⟨"cgroup_cpu_ms_per_sec", true, 0x0831⟩,
  ⟨"cgroup_cpu_mount", true, 0x0822⟩,
  ⟨"cgroup_cpu_parent", true, 0x0833⟩,
  ⟨"iface_no_lo", false, 0x700⟩,
  ⟨"macvlan_iface", true, 73⟩,
  ⟨"macvlan_vs_ip", true, 0x701⟩,
  ⟨"macvlan_vs_nm", true, 0x702⟩,
  ⟨"macvlan_vs_gw", true, 0x703⟩]

def deprecated_opts : List COpt := [
  ⟨"iface", true, 73⟩,
  ⟨"iface_vs_ip", true, 0x701⟩,
  ⟨"iface_vs_nm", true, 0x702⟩,
  ⟨"iface_vs_gw", true, 0x703⟩,
  ⟨"enable_clone_newcgroup", false, 0x0408⟩]

/-- The `opts` array handed to `getopt_long` (`src/cmdline.cc:396`):
canonical options first, then the deprecated aliases. -/
def optsAll : List COpt := custom_opts ++ deprecated_opts

/-- Resolution by `getopt_long` of a long option name to its table entry
(first match in the `opts` array). -/
def lookupLong (name : String) : Option COpt :=
  optsAll.find? (fun o => o.name == name)

/-- The deprecation notice computed by `cmdlineUsage`
(`src/cmdline.cc:179`): the name of the first canonical option whose
`getopt` value equals the deprecated entry's value, if any; `cmdlineUsage`
prints "DEPRECATED: Use <name> instead." exactly when this is `some`. -/
def deprNotice (d : COpt) : Option String :=
  (custom_opts.find? (fun o => o.val == d.val)).map (fun o => o.name)

/-! ## The directive loop -/

/-- Handling of the `-u`/`-g`/`-U`/`-G` directives
(`src/cmdline.cc:594`): split the value into up to three fields, default the
count to 1 when the third field is absent or empty, and hand the tokens to
the identity builder. -/
def idMapStep (host : Host) (st : PState) (a : String) (is_gid : Bool)
    (is_newidmap : Bool) : Except PErr PState :=
  let p1 := cmdlineSplitStrByColon a
  let p2 := splitOpt p1.2
  let count : Nat :=
    match p2.2 with
    | none => 1
    | some t => if t = "" then 1 else strtoul0 t
  match userParseId host p1.1 p2.1 count is_gid is_newidmap with
  | some e => .ok ⟨appendIdMap st.conf is_gid e, st.tmpfsSz⟩
  | none => .error .fail

/-- Append a mount entry at the tail, as the `-R`/`-B`/`-T` cases and the
proc finalization do (`mnt::addMountPtTail`, checked for success). -/
def addTail (host : Host) (conf : Conf) (e : MountEntry) :
    Except PErr Conf :=
  if host.mntAddOk e then .ok { conf with mountpts := conf.mountpts ++ [e] }
  else .error .fail

/-- Insert a mount entry at the head (`mnt::addMountPtHead`, used for the
namespace root only). -/
def addHead (host : Host) (conf : Conf) (e : MountEntry) :
    Except PErr Conf :=
  if host.mntAddOk e then .ok { conf with mountpts := e :: conf.mountpts }
  else .error .fail

/-- One iteration of the option switch of `parseArgs`
(`src/cmdline.cc:415`): directive code `c` (the `getopt_long` return value)
with its argument `a`, applied to the loop state. -/
def stepDir (host : Host) (st : PState) (c : Nat) (a : String) :
    Except PErr PState :=
  let conf := st.conf
  let sz := st.tmpfsSz
  match c with
  | 120 => .ok ⟨{ conf with exec_file := some a }, sz⟩
  | 72 => .ok ⟨{ conf with hostname := a }, sz⟩
  | 68 => .ok ⟨{ conf with cwd := a }, sz⟩
  | 67 =>
    match host.configParse conf a with
    | some c2 => .ok ⟨c2, sz⟩
    | none => .error .fatal
  | 99 => .ok ⟨{ conf with chroot := a }, sz⟩
  | 112 => .ok ⟨{ conf with port := strtoul0 a, mode := .LISTEN_TCP }, sz⟩
  | 0x604 => .ok ⟨{ conf with bindhost := a }, sz⟩
  | 105 => .ok ⟨{ conf with max_conns_per_ip := strtoul0 a }, sz⟩
  | 108 =>
    let c2 := { conf with logfile := some a }
    if host.initLogOk c2 then .ok ⟨c2, sz⟩ else .error .fail
  | 76 =>
    let c2 := { conf with log_fd := strtol0 a }
    if host.initLogOk c2 then .ok ⟨c2, sz⟩ else .error .fail
  | 100 => .ok ⟨{ conf with daemonize := true }, sz⟩
  | 118 =>
    let c2 := { conf with loglevel := .DEBUG }
    if host.initLogOk c2 then .ok ⟨c2, sz⟩ else .error .fail
  | 113 =>
    let c2 := { conf with loglevel := .WARNING }
    if host.initLogOk c2 then .ok ⟨c2, sz⟩ else .error .fail
  | 81 =>
    let c2 := { conf with loglevel := .FATAL }
    if host.initLogOk c2 then .ok ⟨c2, sz⟩ else .error .fail
  | 101 => .ok ⟨{ conf with keep_env := true }, sz⟩
  | 116 => .ok ⟨{ conf with tlimit := strtol0 a }, sz⟩
  | 104 => .error .helpExit
  | 0x0201 =>
    match parseRLimit host RLIMIT_AS a (1024 * 1024) with
    | some v => .ok ⟨{ conf with rl_as := v }, sz⟩
    | none => .error .fatal
  | 0x0202 =>
    match parseRLimit host RLIMIT_CORE a (1024 * 1024) with
    | some v => .ok ⟨{ conf with rl_core := v }, sz⟩
    | none => .error .fatal
  | 0x0203 =>
    match parseRLimit host RLIMIT_CPU a 1 with
    | some v => .ok ⟨{ conf with rl_cpu := v }, sz⟩
    | none => .error .fatal
  | 0x0204 =>
    match parseRLimit host RLIMIT_FSIZE a (1024 * 1024) with
    | some v => .ok ⟨{ conf with rl_fsize := v }, sz⟩
    | none => .error .fatal
  | 0x0205 =>
    match parseRLimit host RLIMIT_NOFILE a 1 with
    | some v => .ok ⟨{ conf with rl_nofile := v }, sz⟩
    | none => .error .fatal
  | 0x0206 =>
    match parseRLimit host RLIMIT_NPROC a 1 with
    | some v => .ok ⟨{ conf with rl_nproc := v }, sz⟩
    | none => .error .fatal
  | 0x0207 =>
    match parseRLimit host RLIMIT_STACK a (1024 * 1024) with
    | some v => .ok ⟨{ conf with rl_stack := v }, sz⟩
    | none => .error .fatal
  | 0x0301 =>
    .ok ⟨{ conf with personality := conf.personality ||| ADDR_COMPAT_LAYOUT }, sz⟩
  | 0x0302 =>
    .ok ⟨{ conf with personality := conf.personality ||| MMAP_PAGE_ZERO }, sz⟩
  | 0x0303 =>
    .ok ⟨{ conf with personality := conf.personality ||| READ_IMPLIES_EXEC }, sz⟩
  | 0x0304 =>
    .ok ⟨{ conf with personality := conf.personality ||| ADDR_LIMIT_3GB }, sz⟩
  | 0x0305 =>
    .ok ⟨{ conf with personality := conf.personality ||| ADDR_NO_RANDOMIZE }, sz⟩
  | 78 => .ok ⟨{ conf with clone_newnet := false }, sz⟩
  | 0x0402 => .ok ⟨{ conf with clone_newuser := false }, sz⟩
  | 0x0403 => .ok ⟨{ conf with clone_newns := false }, sz⟩
  | 0x0404 => .ok ⟨{ conf with clone_newpid := false }, sz⟩
  | 0x0405 => .ok ⟨{ conf with clone_newipc := false }, sz⟩
  | 0x0406 => .ok ⟨{ conf with clone_newuts := false }, sz⟩
  | 0x0407 => .ok ⟨{ conf with clone_newcgroup := false }, sz⟩
  | 0x0408 => .ok ⟨{ conf with clone_newcgroup := true }, sz⟩
  | 0x0501 => .ok ⟨{ conf with keep_caps := true }, sz⟩
  | 0x0502 => .ok ⟨{ conf with is_silent := true }, sz⟩
  | 0x0504 => .ok ⟨{ conf with skip_setsid := true }, sz⟩
  | 0x0505 =>
    .ok ⟨{ conf with openfds := conf.openfds ++ [toInt32 (strtol0 a)] }, sz⟩
  | 0x0507 => .ok ⟨{ conf with disable_no_new_privs := true }, sz⟩
  | 0x0508 => .ok ⟨{ conf with max_cpus := strtoul0 a }, sz⟩
  | 0x0509 =>
    if host.capsNameToVal a = -1 then .error .fail
    else .ok ⟨{ conf with caps := conf.caps ++ [host.capsNameToVal a] }, sz⟩
  | 0x601 => .ok ⟨{ conf with is_root_rw := true }, sz⟩
  | 0x0602 =>
    let n := strtoul0 a
    .ok ⟨{ conf with tmpfs_size := n }, "size=" ++ toString n⟩
  | 0x0603 => .ok ⟨{ conf with mount_proc := false }, sz⟩
  | 0x0605 => .ok ⟨{ conf with proc_path := a }, sz⟩
  | 0x0606 => .ok ⟨{ conf with is_proc_rw := true }, sz⟩
  | 0x0607 => .ok ⟨{ conf with use_execveat := true }, sz⟩
  | 69 => .ok ⟨{ conf with envs := conf.envs ++ [a] }, sz⟩
  | 117 => idMapStep host st a false false
  | 103 => idMapStep host st a true false
  | 85 => idMapStep host st a false true
  | 71 => idMapStep host st a true true
  | 82 =>
    if host.mntAddOk (mountR a) then
      .ok ⟨{ conf with mountpts := conf.mountpts ++ [mountR a] }, sz⟩
    else .error .fail
  | 66 =>
    if host.mntAddOk (mountB a) then
      .ok ⟨{ conf with mountpts := conf.mountpts ++ [mountB a] }, sz⟩
    else .error .fail
  | 84 =>
    if host.mntAddOk (mountT sz a) then
      .ok ⟨{ conf with mountpts := conf.mountpts ++ [mountT sz a] }, sz⟩
    else .error .fail
  | 77 =>
    match a.data with
    | 'l' :: _ => .ok ⟨{ conf with mode := .LISTEN_TCP }, sz⟩
    | 'o' :: _ => .ok ⟨{ conf with mode := .STANDALONE_ONCE }, sz⟩
    | 'e' :: _ => .ok ⟨{ conf with mode := .STANDALONE_EXECVE }, sz⟩
    | 'r' :: _ => .ok ⟨{ conf with mode := .STANDALONE_RERUN }, sz⟩
    | _ => .error .usage
  | 0x700 => .ok ⟨{ conf with iface_no_lo := true }, sz⟩
  | 73 => .ok ⟨{ conf with iface_vs := some a }, sz⟩
  | 0x701 => .ok ⟨{ conf with iface_vs_ip := a }, sz⟩
  | 0x702 => .ok ⟨{ conf with iface_vs_nm := a }, sz⟩
  | 0x703 => .ok ⟨{ conf with iface_vs_gw := a }, sz⟩
  | 0x801 => .ok ⟨{ conf with cgroup_mem_max := strtoul0 a }, sz⟩
  | 0x802 => .ok ⟨{ conf with cgroup_mem_mount := a }, sz⟩
  | 0x803 => .ok ⟨{ conf with cgroup_mem_parent := a }, sz⟩
  | 0x811 => .ok ⟨{ conf with cgroup_pids_max := strtoul0 a % 2 ^ 32 }, sz⟩
  | 0x812 => .ok ⟨{ conf with cgroup_pids_mount := a }, sz⟩
  | 0x813 => .ok ⟨{ conf with cgroup_pids_parent := a }, sz⟩
  | 0x821 =>
    .ok ⟨{ conf with cgroup_net_cls_classid := strtoul0 a % 2 ^ 32 }, sz⟩
  | 0x822 => .ok ⟨{ conf with cgroup_net_cls_mount := a }, sz⟩
  | 0x823 => .ok ⟨{ conf with cgroup_net_cls_parent := a }, sz⟩
  | 0x831 =>
    .ok ⟨{ conf with cgroup_cpu_ms_per_sec := strtoul0 a % 2 ^ 32 }, sz⟩
  | 0x832 => .ok ⟨{ conf with cgroup_cpu_mount := a }, sz⟩
  | 0x833 => .ok ⟨{ conf with cgroup_cpu_parent := a }, sz⟩
  | 80 =>
    let c2 := { conf with kafel_file_path := some a }
    if host.accessR a then .ok ⟨c2, sz⟩ else .error .fail
  | 0x0901 => .ok ⟨{ conf with kafel_string := some a }, sz⟩
  | _ => .error .usage

/-- The whole `for (;;) { getopt_long; switch }` loop over a directive
stream, short-circuiting on the first failure. -/
def runDirs (host : Host) (st : PState) :
    List (Nat × String) → Except PErr PState
  | [] => .ok st
  | (c, a) :: ds =>
    match stepDir host st c a with
    | .ok st2 => runDirs host st2 ds
    | .error e => .error e

/-! ## Initialization and finalization of `parseArgs` -/

/-- The field initialization block of `parseArgs` (`src/cmdline.cc:326`).
`rl_nproc` and `rl_stack` are seeded from the current soft limits via
`parseRLimit(..., "soft", 1)`; a failing host query there is process-fatal,
hence the `Option`. -/
def initialConf (host : Host) : Option Conf :=
  match parseRLimit host RLIMIT_NPROC "soft" 1,
      parseRLimit host RLIMIT_STACK "soft" 1 with
  | some np, some stk =>
    some {
      exec_file := none
      use_execveat := false
      exec_fd := -1
      argv := none
      hostname := "NSJAIL"
      cwd := "/"
      chroot := ""
      port := 0
      bindhost := "::"
      log_fd := 2
      loglevel := .INFO
      logfile := none
      daemonize := false
      tlimit := 0
      max_cpus := 0
      keep_env := false
      keep_caps := false
      disable_no_new_privs := false
      rl_as := 512 * (1024 * 1024)
      rl_core := 0
      rl_cpu := 600
      rl_fsize := 1 * (1024 * 1024)
      rl_nofile := 32
      rl_nproc := np
      rl_stack := stk
      personality := 0
      clone_newnet := true
      clone_newuser := true
      clone_newns := true
      clone_newpid := true
      clone_newipc := true
      clone_newuts := true
      clone_newcgroup := true
      mode := .STANDALONE_ONCE
      is_root_rw := false
      is_silent := false
      skip_setsid := false
      max_conns_per_ip := 0
      tmpfs_size := 4 * (1024 * 1024)
      mount_proc := true
      proc_path := "/proc"
      is_proc_rw := false
      cgroup_mem_mount := "/sys/fs/cgroup/memory"
      cgroup_mem_parent := "NSJAIL"
      cgroup_mem_max := 0
      cgroup_pids_mount := "/sys/fs/cgroup/pids"
      cgroup_pids_parent := "NSJAIL"
      cgroup_pids_max := 0
      cgroup_net_cls_mount := "/sys/fs/cgroup/net_cls"
      cgroup_net_cls_parent := "NSJAIL"
      cgroup_net_cls_classid := 0
      cgroup_cpu_mount := "/sys/fs/cgroup/cpu"
      cgroup_cpu_parent := "NSJAIL"
      cgroup_cpu_ms_per_sec := 0
      iface_no_lo := false
      iface_vs := none
      iface_vs_ip := "0.0.0.0"
      iface_vs_nm := "255.255.255.0"
      iface_vs_gw := "0.0.0.0"
      kafel_file_path := none
      kafel_string := none
      orig_uid := host.getuid
      num_cpus := host.numCpus
      openfds := [0, 1, 2]
      envs := []
      caps := []
      uids := []
      gids := []
      mountpts := [] }
  | _, _ => none

/-- Initial contents of the function-static `cmdlineTmpfsSz` buffer. -/
def initTmpfsSz : String := "size=4194304"

/-- Finalization step 1 (`src/cmdline.cc:762`): append the proc entry at
the tail when proc mounting is enabled. -/
def finProc (host : Host) (conf : Conf) : Except PErr Conf :=
  if conf.mount_proc then addTail host conf (procEntry conf) else .ok conf

/-- Finalization step 2 (`src/cmdline.cc:769`): insert the root entry at
the head — a bind mount of the chroot, or a tmpfs when no chroot. -/
def finRoot (host : Host) (conf : Conf) : Except PErr Conf :=
  if conf.chroot ≠ "" then addHead host conf (rootBindEntry conf)
  else addHead host conf (rootTmpfsEntry conf)

/-- Finalization step 3 (`src/cmdline.cc:788`): default each empty id-map
list to a single 1:1 mapping of the invoking process's real id. -/
def finIds (host : Host) (conf : Conf) : Conf :=
  let conf :=
    if conf.uids = [] then
      { conf with uids := [⟨host.getuid, host.getuid, 1, false⟩] }
    else conf
  if conf.gids = [] then
    { conf with gids := [⟨host.getgid, host.getgid, 1, false⟩] }
  else conf

/-- Tail of finalization once a non-empty command `argv` with head `a0` is
known (`src/cmdline.cc:817`): default `exec_file` to `argv[0]`, open the
execveat descriptor if requested, and run `sandbox::preparePolicy`. -/
def finExecCmd (host : Host) (a0 : String) (conf : Conf) :
    Except PErr Conf :=
  let conf :=
    if conf.exec_file = none then { conf with exec_file := some a0 }
    else conf
  if conf.use_execveat then
    match host.openExec (conf.exec_file.getD "") with
    | none => .error .fail
    | some fd =>
      let conf := { conf with exec_fd := fd }
      if host.preparePolicy conf then .ok conf else .error .fail
  else if host.preparePolicy conf then .ok conf else .error .fail

/-- Finalization steps 5-7 (`src/cmdline.cc:809`): take the positional tail
as the command when present, and require a non-empty command
(`LOG_E("No command provided")` plus usage otherwise). -/
def finExec (host : Host) (rest : List String) (conf : Conf) :
    Except PErr Conf :=
  match rest, conf.argv with
  | [], none => .error .usage
  | [], some [] => .error .usage
  | [], some (a0 :: _) => finExecCmd host a0 conf
  | r0 :: rs, _ => finExecCmd host r0 { conf with argv := some (r0 :: rs) }

/-- Post-loop part of `parseArgs` (`src/cmdline.cc:762` onward), in source
order: proc entry, root entry, id-map defaults, `log::initLogFile`, and the
command/exec/policy handling. -/
def finalize (host : Host) (rest : List String) (st : PState) :
    Except PErr Conf :=
  match finProc host st.conf with
  | .error e => .error e
  | .ok c1 =>
    match finRoot host c1 with
    | .error e => .error e
    | .ok c2 =>
      let c3 := finIds host c2
      if host.initLogOk c3 then finExec host rest c3 else .error .fail

/-- The whole of `parseArgs` (`src/cmdline.cc:323`): initialize the
configuration, consume the directive stream (the `getopt_long` results),
then finalize.  `rest` is the positional tail `argv[optind..]`. -/
def parseArgs (host : Host) (ds : List (Nat × String))
    (rest : List String) : Except PErr Conf :=
  match initialConf host with
  | none => .error .fatal
  | some c0 =>
    match runDirs host ⟨c0, initTmpfsSz⟩ ds with
    | .error e => .error e
    | .ok st => finalize host rest st

/-! ## Derived descriptions of the loop's effect on collections -/

/-- Mount entries contributed by one directive. -/
def stepMounts (sz : String) (c : Nat) (a : String) : List MountEntry :=
  if c = 82 then [mountR a]
  else if c = 66 then [mountB a]
  else if c = 84 then [mountT sz a]
  else []

/-- Contents of the `cmdlineTmpfsSz` buffer after one directive. -/
def stepSz (sz : String) (c : Nat) (a : String) : String :=
  if c = 0x0602 then "size=" ++ toString (strtoul0 a) else sz

/-- The user-specified mount entries of a directive stream, in command-line
order, threading the tmpfs-size buffer. -/
def userMounts (sz : String) : List (Nat × String) → List MountEntry
  | [] => []
  | (c, a) :: ds => stepMounts sz c a ++ userMounts (stepSz sz c a) ds

/-- The directive stream contains no `-C`/`--config` directive (whose
effect is the external `config::parseFile`). -/
def noCfg (ds : List (Nat × String)) : Prop := ∀ d ∈ ds, d.1 ≠ 67

instance (ds : List (Nat × String)) : Decidable (noCfg ds) := by
  unfold noCfg; infer_instance

/-- The directive stream contains none of the identity-mapping directives
`-u`/`-g`/`-U`/`-G`. -/
def noIdDirs (ds : List (Nat × String)) : Prop :=
  ∀ d ∈ ds, d.1 ≠ 117 ∧ d.1 ≠ 103 ∧ d.1 ≠ 85 ∧ d.1 ≠ 71

instance (ds : List (Nat × String)) : Decidable (noIdDirs ds) := by
  unfold noIdDirs; infer_instance

/-! ## Frame lemmas about the directive loop -/

theorem stepDir_frame (host : Host) (st st' : PState) (c : Nat) (a : String)
    (hc : c ≠ 67) (h : stepDir host st c a = .ok st') :
    st'.conf.mountpts = st.conf.mountpts ++ stepMounts st.tmpfsSz c a ∧
    st'.tmpfsSz = stepSz st.tmpfsSz c a ∧
    ((c ≠ 117 ∧ c ≠ 103 ∧ c ≠ 85 ∧ c ≠ 71) →
      st'.conf.uids = st.conf.uids ∧ st'.conf.gids = st.conf.gids) := by
  unfold stepDir at h
  split at h <;>
    (try simp only [idMapStep] at h) <;>
    (repeat' split at h) <;>
    (try injection h with h) <;>
    (try subst h) <;>
    simp_all [stepMounts, stepSz, appendIdMap]

theorem runDirs_append (host : Host) (ds1 ds2 : List (Nat × String)) :
    ∀ st, runDirs host st (ds1 ++ ds2) =
      match runDirs host st ds1 with
      | .ok st1 => runDirs host st1 ds2
      | .error e => .error e := by
  induction ds1 with
  | nil => intro st; simp [runDirs]
  | cons d ds ih =>
    rcases d with ⟨c, a⟩
    intro st
    simp only [List.cons_append, runDirs]
    cases stepDir host st c a <;> simp [ih]

theorem runDirs_frame (host : Host) (ds : List (Nat × String)) :
    ∀ st st', noCfg ds → runDirs host st ds = .ok st' →
      st'.conf.mountpts = st.conf.mountpts ++ userMounts st.tmpfsSz ds ∧
      (noIdDirs ds →
        st'.conf.uids = st.conf.uids ∧ st'.conf.gids = st.conf.gids) := by
  induction ds with
  | nil =>
    intro st st' _ h
    simp only [runDirs] at h
    injection h with h
    subst h
    simp [userMounts]
  | cons d ds ih =>
    rcases d with ⟨c, a⟩
    intro st st' hcfg h
    simp only [runDirs] at h
    cases hst : stepDir host st c a with
    | error e => rw [hst] at h; exact absurd h (by simp)
    | ok st1 =>
      rw [hst] at h
      have hc : c ≠ 67 := by
        have := hcfg (c, a) (List.mem_cons_self _ _)
        simpa using this
      obtain ⟨hm, hsz, hids⟩ := stepDir_frame host st st1 c a hc hst
      obtain ⟨ihm, ihids⟩ :=
        ih st1 st' (fun d hd => hcfg d (List.mem_cons_of_mem _ hd)) h
      constructor
      · rw [ihm, hm, hsz, userMounts, List.append_assoc]
      · intro hnid
        have h1 := hids (hnid (c, a) (List.mem_cons_self _ _))
        have h2 := ihids (fun d hd => hnid d (List.mem_cons_of_mem _ hd))
        exact ⟨h2.1.trans h1.1, h2.2.trans h1.2⟩

theorem finExec_frame (host : Host) (rest : List String) (conf conf' : Conf)
    (h : finExec host rest conf = .ok conf') :
    conf'.mountpts = conf.mountpts ∧ conf'.uids = conf.uids ∧
    conf'.gids = conf.gids ∧ conf'.chroot = conf.chroot ∧
    conf'.mount_proc = conf.mount_proc ∧
    conf'.proc_path = conf.proc_path ∧
    conf'.is_proc_rw = conf.is_proc_rw ∧
    conf'.is_root_rw = conf.is_root_rw := by
  unfold finExec at h
  split at h <;>
    (try simp only [finExecCmd] at h) <;>
    (repeat' split at h) <;>
    (try injection h with h) <;>
    (try subst h) <;>
    simp_all

theorem finProc_fields (host : Host) (conf c1 : Conf)
    (h : finProc host conf = .ok c1) :
    c1 = { conf with
      mountpts := conf.mountpts ++
        (if conf.mount_proc then [procEntry conf] else []) } := by
  unfold finProc addTail at h
  (repeat' split at h) <;>
    (try injection h with h) <;>
    (try subst h) <;>
    (first | (simp_all; done) | (cases conf; simp_all))

theorem finRoot_fields (host : Host) (conf c1 : Conf)
    (h : finRoot host conf = .ok c1) :
    c1 = { conf with mountpts := rootEntryOf conf :: conf.mountpts } := by
  unfold finRoot addHead at h
  unfold rootEntryOf
  (repeat' split at h) <;>
    (try injection h with h) <;>
    (try subst h) <;>
    simp_all

theorem finIds_fields (host : Host) (conf : Conf) :
    finIds host conf = { conf with
      uids :=
        if conf.uids = [] then [⟨host.getuid, host.getuid, 1, false⟩]
        else conf.uids,
      gids :=
        if conf.gids = [] then [⟨host.getgid, host.getgid, 1, false⟩]
        else conf.gids } := by
  unfold finIds
  (repeat' split) <;> simp_all

theorem finalize_fields (host : Host) (rest : List String) (st : PState)
    (conf : Conf) (h : finalize host rest st = .ok conf) :
    conf.mountpts = rootEntryOf st.conf ::
      (st.conf.mountpts ++
        (if st.conf.mount_proc then [procEntry st.conf] else [])) ∧
    conf.chroot = st.conf.chroot ∧
    conf.mount_proc = st.conf.mount_proc ∧
    conf.proc_path = st.conf.proc_path ∧
    conf.is_proc_rw = st.conf.is_proc_rw ∧
    conf.is_root_rw = st.conf.is_root_rw ∧
    conf.uids =
      (if st.conf.uids = [] then [⟨host.getuid, host.getuid, 1, false⟩]
       else st.conf.uids) ∧
    conf.gids =
      (if st.conf.gids = [] then [⟨host.getgid, host.getgid, 1, false⟩]
       else st.conf.gids) := by
  simp only [finalize] at h
  split at h
  · exact absurd h (by simp)
  · rename_i c1 hp
    split at h
    · exact absurd h (by simp)
    · rename_i c2 hr
      have hp1 := finProc_fields host st.conf c1 hp
      have hr1 := finRoot_fields host c1 c2 hr
      subst hp1
      subst hr1
      (repeat' split at h) <;>
        first
          | (simp at h; done)
          | (obtain ⟨e1, e2, e3, e4, e5, e6, e7, e8⟩ :=
              finExec_frame _ _ _ _ h
             rw [finIds_fields] at e1 e2 e3 e4 e5 e6 e7 e8
             simp only [rootEntryOf, rootBindEntry, rootTmpfsEntry,
               procEntry] at e1 e2 e3 e4 e5 e6 e7 e8 ⊢
             simp_all)

theorem initialConf_fields (host : Host) (c0 : Conf)
    (h : initialConf host = some c0) :
    c0.mountpts = [] ∧ c0.uids = [] ∧ c0.gids = [] ∧
    c0.mount_proc = true ∧ c0.chroot = "" ∧
    c0.cgroup_cpu_mount = "/sys/fs/cgroup/cpu" ∧
    c0.mode = Mode.STANDALONE_ONCE := by
  unfold initialConf at h
  (repeat' split at h) <;>
    (try injection h with h) <;>
    (try subst h) <;>
    simp_all

/-! ## Claims about the finalized mount sequence and identity defaults -/

/-- C1: for any directive sequence (containing bind mounts, tmpfs mounts
and a chroot directive or not, and free of the external `-C` config
directive), if `parseArgs` succeeds and proc mounting is enabled, the
finalized mount sequence is exactly the root entry (chroot bind mount, or
tmpfs at `/` when no chroot) at position 0, followed by the user-specified
mount entries in command-line order, followed by the proc entry last —
regardless of where `-c` appears relative to the mount directives (the
chroot directive only sets a scalar field; the root entry is inserted at
the head during finalization). -/
theorem claim_C1 (host : Host) (ds : List (Nat × String))
    (rest : List String) (conf : Conf) (hcfg : noCfg ds)
    (h : parseArgs host ds rest = .ok conf)
    (hproc : conf.mount_proc = true) :
    conf.mountpts =
      rootEntryOf conf :: (userMounts initTmpfsSz ds ++ [procEntry conf]) := by
  unfold parseArgs at h
  split at h
  · exact absurd h (by simp)
  · rename_i c0 hic
    split at h
    · exact absurd h (by simp)
    · rename_i st hrun
      obtain ⟨f1, f2, f3, f4, f5, f6, f7, f8⟩ :=
        finalize_fields host rest st conf h
      obtain ⟨i1, i2, i3, i4, i5, i6, i7⟩ := initialConf_fields host c0 hic
      obtain ⟨m1, -⟩ :=
        runDirs_frame host ds ⟨c0, initTmpfsSz⟩ st hcfg hrun
      have hmp : st.conf.mount_proc = true := by rw [← f3]; exact hproc
      rw [f1]
      simp only [PState.conf, PState.tmpfsSz] at m1
      rw [m1, i1, hmp]
      simp [rootEntryOf, rootBindEntry, rootTmpfsEntry, procEntry,
        f2, f4, f5, f6]

/-- C4: if the argument vector contains no `--user`/`--group`/
`--uid_mapping`/`--gid_mapping` directive (and no external `-C` config
directive), the finalized specification contains exactly one uid-map entry
and one gid-map entry, each mapping the invoking process's real id to
itself with count 1 and the external-helper flag unset. -/
theorem claim_C4 (host : Host) (ds : List (Nat × String))
    (rest : List String) (conf : Conf) (hcfg : noCfg ds)
    (hnid : noIdDirs ds) (h : parseArgs host ds rest = .ok conf) :
    conf.uids = [⟨host.getuid, host.getuid, 1, false⟩] ∧
    conf.gids = [⟨host.getgid, host.getgid, 1, false⟩] := by
  unfold parseArgs at h
  split at h
  · exact absurd h (by simp)
  · rename_i c0 hic
    split at h
    · exact absurd h (by simp)
    · rename_i st hrun
      obtain ⟨f1, f2, f3, f4, f5, f6, f7, f8⟩ :=
        finalize_fields host rest st conf h
      obtain ⟨i1, i2, i3, i4, i5, i6, i7⟩ := initialConf_fields host c0 hic
      obtain ⟨-, hids⟩ :=
        runDirs_frame host ds ⟨c0, initTmpfsSz⟩ st hcfg hrun
      obtain ⟨hu, hg⟩ := hids hnid
      simp only [PState.conf] at hu hg
      rw [i2] at hu
      rw [i3] at hg
      rw [f7, f8, hu, hg]
      simp

/-! ## A concrete host environment for witnesses -/

/-- A concrete host used to instantiate the theorems on closed inputs:
real ids 1000/1000, every resource limit currently `(100, 200)`, numeric
identity tokens resolve to their value, the single-token identity policy
accepts only the token `"7"`, and every external collaborator succeeds. -/
def host0 : Host where
  getuid := 1000
  getgid := 1000
  getrlimit64 := fun _ => some (100, 200)
  capsNameToVal := fun s => if s = "CAP_SYS_PTRACE" then 27 else -1
  resolveUid := fun s => if isANumber s then some (strtoul0 s) else none
  resolveGid := fun s => if isANumber s then some (strtoul0 s) else none
  selfMapOk := fun s => s = "7"
  accessR := fun _ => true
  initLogOk := fun _ => true
  configParse := fun c _ => some c
  mntAddOk := fun _ => true
  preparePolicy := fun _ => true
  openExec := fun _ => some 3
  numCpus := 4

/-- Directive stream of the C1 witness: `-B /a -T /b -c /root`. -/
def dsC1 : List (Nat × String) := [(66, "/a"), (84, "/b"), (99, "/root")]

/-- Configuration produced by the C1 witness run. -/
def confC1 : Conf :=
  ((parseArgs host0 dsC1 ["/bin/sh"]).toOption).getD default

theorem claim_C1_witness :
    noCfg dsC1 ∧ parseArgs host0 dsC1 ["/bin/sh"] = .ok confC1 ∧
    confC1.mount_proc = true ∧
    confC1.mountpts =
      rootEntryOf confC1 ::
        (userMounts initTmpfsSz dsC1 ++ [procEntry confC1]) ∧
    confC1.mountpts =
      [rootBindEntry confC1, mountB "/a", mountT initTmpfsSz "/b",
        procEntry confC1] :=
  ⟨by decide, by rfl, by rfl,
    claim_C1 host0 dsC1 ["/bin/sh"] confC1 (by decide) (by rfl) (by rfl),
    by rfl⟩

/-- Directive stream of the C4 witness: `-H JAIL` only. -/
def dsC4 : List (Nat × String) := [(72, "JAIL")]

/-- Configuration produced by the C4 witness run. -/
def confC4 : Conf :=
  ((parseArgs host0 dsC4 ["/bin/sh"]).toOption).getD default

theorem claim_C4_witness :
    noCfg dsC4 ∧ noIdDirs dsC4 ∧
    parseArgs host0 dsC4 ["/bin/sh"] = .ok confC4 ∧
    confC4.uids = [⟨1000, 1000, 1, false⟩] ∧
    confC4.gids = [⟨1000, 1000, 1, false⟩] :=
  ⟨by decide, by decide, by rfl,
    (claim_C4 host0 dsC4 ["/bin/sh"] confC4 (by decide) (by decide)
      (by rfl)).1,
    (claim_C4 host0 dsC4 ["/bin/sh"] confC4 (by decide) (by decide)
      (by rfl)).2⟩

/-! ## Behaviour of the colon splitter on structured tokens -/

theorem splitColon_no_colon (l : List Char) (h : ':' ∉ l) :
    splitColon l = (l, none) := by
  induction l with
  | nil => rfl
  | cons c cs ih =>
    simp only [List.mem_cons, not_or] at h
    have hc : ¬(c = ':') := fun hh => h.1 hh.symm
    simp [splitColon, hc, ih h.2]

theorem splitColon_append (l r : List Char) (h : ':' ∉ l) :
    splitColon (l ++ ':' :: r) = (l, some r) := by
  induction l with
  | nil => simp [splitColon]
  | cons c cs ih =>
    simp only [List.mem_cons, not_or] at h
    have hc : ¬(c = ':') := fun hh => h.1 hh.symm
    simp [splitColon, hc, ih h.2]

theorem strMk_data (s : String) : String.mk s.data = s := rfl

theorem data_append_colon (u v : String) :
    (u ++ ":" ++ v).data = u.data ++ ':' :: v.data := by
  simp [String.data_append]

theorem cmdlineSplit_append (u v : String) (h : ':' ∉ u.data) :
    cmdlineSplitStrByColon (u ++ ":" ++ v) = (u, some v) := by
  unfold cmdlineSplitStrByColon
  rw [data_append_colon, splitColon_append _ _ h]
  simp [strMk_data]

theorem cmdlineSplit_no (u : String) (h : ':' ∉ u.data) :
    cmdlineSplitStrByColon u = (u, none) := by
  unfold cmdlineSplitStrByColon
  rw [splitColon_no_colon _ h]
  simp [strMk_data]

/-! ## Evaluation of the identity-mapping step on the three token shapes -/

theorem idMapStep_triple (host : Host) (st : PState) (is_gid is_nm : Bool)
    (ta tb tc : String) (hta : ':' ∉ ta.data) (htb : ':' ∉ tb.data)
    (htc : tc ≠ "") (a b : Nat)
    (hra : (if is_gid then host.resolveGid else host.resolveUid) ta = some a)
    (hrb :
      (if is_gid then host.resolveGid else host.resolveUid) tb = some b) :
    idMapStep host st (ta ++ ":" ++ tb ++ ":" ++ tc) is_gid is_nm =
      .ok ⟨appendIdMap st.conf is_gid ⟨a, b, strtoul0 tc, is_nm⟩,
        st.tmpfsSz⟩ := by
  have hassoc : ta ++ ":" ++ tb ++ ":" ++ tc =
      ta ++ ":" ++ (tb ++ ":" ++ tc) := by
    simp [String.append_assoc]
  unfold idMapStep
  rw [hassoc, cmdlineSplit_append ta (tb ++ ":" ++ tc) hta]
  simp only [splitOpt, cmdlineSplit_append tb tc htb]
  simp only [userParseId]
  rw [hra, hrb]
  simp [htc]

theorem idMapStep_pair (host : Host) (st : PState) (is_gid is_nm : Bool)
    (ta tb : String) (hta : ':' ∉ ta.data) (htb : ':' ∉ tb.data)
    (a b : Nat)
    (hra : (if is_gid then host.resolveGid else host.resolveUid) ta = some a)
    (hrb :
      (if is_gid then host.resolveGid else host.resolveUid) tb = some b) :
    idMapStep host st (ta ++ ":" ++ tb) is_gid is_nm =
      .ok ⟨appendIdMap st.conf is_gid ⟨a, b, 1, is_nm⟩, st.tmpfsSz⟩ := by
  unfold idMapStep
  rw [cmdlineSplit_append ta tb hta]
  simp only [splitOpt, cmdlineSplit_no tb htb]
  simp only [userParseId]
  rw [hra, hrb]

theorem idMapStep_bare (host : Host) (st : PState) (is_gid is_nm : Bool)
    (ta : String) (hta : ':' ∉ ta.data) (a : Nat)
    (hra :
      (if is_gid then host.resolveGid else host.resolveUid) ta = some a) :
    idMapStep host st ta is_gid is_nm =
      (if host.selfMapOk ta then
        .ok ⟨appendIdMap st.conf is_gid ⟨a, a, 1, is_nm⟩, st.tmpfsSz⟩
       else .error .fail) := by
  unfold idMapStep
  rw [cmdlineSplit_no ta hta]
  simp only [splitOpt]
  simp only [userParseId]
  rw [hra]
  by_cases hs : host.selfMapOk ta <;> simp [hs]

theorem cmdlineSplit_trailing (u : String) (h : ':' ∉ u.data) :
    cmdlineSplitStrByColon (u ++ ":") = (u, some "") := by
  unfold cmdlineSplitStrByColon
  have hd : (u ++ ":").data = u.data ++ ':' :: ([] : List Char) := by
    simp [String.data_append]
  rw [hd, splitColon_append _ _ h]
  simp [strMk_data]

theorem idMapStep_empty_count (host : Host) (st : PState)
    (is_gid is_nm : Bool) (ta tb : String) (hta : ':' ∉ ta.data)
    (htb : ':' ∉ tb.data) (a b : Nat)
    (hra : (if is_gid then host.resolveGid else host.resolveUid) ta = some a)
    (hrb :
      (if is_gid then host.resolveGid else host.resolveUid) tb = some b) :
    idMapStep host st (ta ++ ":" ++ tb ++ ":") is_gid is_nm =
      .ok ⟨appendIdMap st.conf is_gid ⟨a, b, 1, is_nm⟩, st.tmpfsSz⟩ := by
  have hassoc : ta ++ ":" ++ tb ++ ":" = ta ++ ":" ++ (tb ++ ":") := by
    simp [String.append_assoc]
  unfold idMapStep
  rw [hassoc, cmdlineSplit_append ta (tb ++ ":") hta]
  simp only [splitOpt, cmdlineSplit_trailing tb htb]
  simp only [userParseId]
  rw [hra, hrb]
  simp

/-- C3: every identity-mapping directive (`-u`/`-g`/`-U`/`-G`) with a valid
triple `a:b:c` appends an id-map entry with inside `a`, outside `b`, count
`c`; a pair `a:b` yields count 1; a bare token passes the outside id as
absent to the identity builder, which rejects it unless its single-token
policy allows self-mapping (and maps the token to itself when it does).
The entry goes to the uid list for `-u`/`-U` and the gid list for
`-g`/`-G`, with the external-helper flag set exactly for `-U`/`-G`. -/
theorem claim_C3 (host : Host) (st : PState) (c : Nat) (is_gid is_nm : Bool)
    (hmem : (c, is_gid, is_nm) ∈
      ([(117, false, false), (103, true, false), (85, false, true),
        (71, true, true)] : List (Nat × Bool × Bool)))
    (ta tb tc : String) (hta : ':' ∉ ta.data) (htb : ':' ∉ tb.data)
    (htc : tc ≠ "") (a b : Nat)
    (hra : (if is_gid then host.resolveGid else host.resolveUid) ta = some a)
    (hrb :
      (if is_gid then host.resolveGid else host.resolveUid) tb = some b) :
    stepDir host st c (ta ++ ":" ++ tb ++ ":" ++ tc) =
      .ok ⟨appendIdMap st.conf is_gid ⟨a, b, strtoul0 tc, is_nm⟩,
        st.tmpfsSz⟩ ∧
    stepDir host st c (ta ++ ":" ++ tb) =
      .ok ⟨appendIdMap st.conf is_gid ⟨a, b, 1, is_nm⟩, st.tmpfsSz⟩ ∧
    (host.selfMapOk ta = false → stepDir host st c ta = .error .fail) ∧
    (host.selfMapOk ta = true →
      stepDir host st c ta =
        .ok ⟨appendIdMap st.conf is_gid ⟨a, a, 1, is_nm⟩, st.tmpfsSz⟩) := by
  have hstep : ∀ s : String,
      stepDir host st c s = idMapStep host st s is_gid is_nm := by
    simp only [List.mem_cons, List.not_mem_nil, or_false,
      Prod.mk.injEq] at hmem
    rcases hmem with ⟨h1, h2, h3⟩ | ⟨h1, h2, h3⟩ | ⟨h1, h2, h3⟩ |
      ⟨h1, h2, h3⟩ <;>
      (subst h1; subst h2; subst h3; intro s; rfl)
  refine ⟨?_, ?_, ?_, ?_⟩
  · rw [hstep]
    exact idMapStep_triple host st is_gid is_nm ta tb tc hta htb htc a b
      hra hrb
  · rw [hstep]
    exact idMapStep_pair host st is_gid is_nm ta tb hta htb a b hra hrb
  · intro hs
    rw [hstep, idMapStep_bare host st is_gid is_nm ta hta a hra,
      if_neg (by simp [hs])]
  · intro hs
    rw [hstep, idMapStep_bare host st is_gid is_nm ta hta a hra,
      if_pos (by simp [hs])]

/-- A small concrete loop state used by step-level witnesses. -/
def stW : PState := ⟨default, initTmpfsSz⟩

theorem claim_C3_witness :
    ((117, false, false) : Nat × Bool × Bool) ∈
      ([(117, false, false), (103, true, false), (85, false, true),
        (71, true, true)] : List (Nat × Bool × Bool)) ∧
    host0.selfMapOk "5" = false ∧
    stepDir host0 stW 117 ("5" ++ ":" ++ "6" ++ ":" ++ "7") =
      .ok ⟨appendIdMap stW.conf false ⟨5, 6, strtoul0 "7", false⟩,
        stW.tmpfsSz⟩ ∧
    stepDir host0 stW 117 "5" = .error .fail :=
  ⟨by decide, by decide,
    (claim_C3 host0 stW 117 false false (by decide) "5" "6" "7"
      (by decide) (by decide) (by decide) 5 6 (by rfl) (by rfl)).1,
    (claim_C3 host0 stW 117 false false (by decide) "5" "6" "7"
      (by decide) (by decide) (by decide) 5 6 (by rfl)
      (by rfl)).2.2.1 (by rfl)⟩

/-- C5 counterexample: the bind-mount caller of the colon splitter does
not treat an empty right-hand part as absent.  Processing `-B "/src:"`
appends an entry whose destination is the empty string, not the source
path `/src` as the claim requires. -/
theorem claim_C5_cex :
    stepDir host0 stW 66 "/src:" =
      .ok ⟨{ stW.conf with
        mountpts := stW.conf.mountpts ++ [mountB "/src:"] }, stW.tmpfsSz⟩ ∧
    (mountB "/src:").dst = "" ∧ (mountB "/src:").src = some "/src" ∧
    ("" : String) ≠ "/src" := by
  refine ⟨by rfl, by rfl, by rfl, by decide⟩

/-- C5 amended: the id-map callers treat an empty right-hand part after
the final split as absent (count defaults to 1), but the bind-mount
callers default the destination to the source only when no colon is
present at all; a trailing colon yields an empty destination string. -/
theorem claim_C5_amended (host : Host) (st : PState) (is_gid is_nm : Bool)
    (ta tb u : String) (hta : ':' ∉ ta.data) (htb : ':' ∉ tb.data)
    (hu : ':' ∉ u.data) (a b : Nat)
    (hra : (if is_gid then host.resolveGid else host.resolveUid) ta = some a)
    (hrb :
      (if is_gid then host.resolveGid else host.resolveUid) tb = some b) :
    idMapStep host st (ta ++ ":" ++ tb ++ ":") is_gid is_nm =
      .ok ⟨appendIdMap st.conf is_gid ⟨a, b, 1, is_nm⟩, st.tmpfsSz⟩ ∧
    (mountB u).dst = u ∧ (mountB u).src = some u ∧ (mountR u).dst = u ∧
    (mountB (u ++ ":")).dst = "" ∧ (mountB (u ++ ":")).src = some u ∧
    (mountR (u ++ ":")).dst = "" := by
  refine ⟨idMapStep_empty_count host st is_gid is_nm ta tb hta htb a b
    hra hrb, ?_, ?_, ?_, ?_, ?_, ?_⟩ <;>
    simp [mountB, mountR, cmdlineSplit_no u hu, cmdlineSplit_trailing u hu]

theorem claim_C5_witness :
    host0.resolveUid "1" = some 1 ∧ host0.resolveUid "2" = some 2 ∧
    idMapStep host0 stW ("1" ++ ":" ++ "2" ++ ":") false false =
      .ok ⟨appendIdMap stW.conf false ⟨1, 2, 1, false⟩, stW.tmpfsSz⟩ ∧
    (mountB "/src").dst = "/src" ∧
    (mountB ("/src" ++ ":")).dst = "" :=
  ⟨by rfl, by rfl,
    (claim_C5_amended host0 stW false false "1" "2" "/src" (by decide)
      (by decide) (by decide) 1 2 (by rfl) (by rfl)).1,
    (claim_C5_amended host0 stW false false "1" "2" "/src" (by decide)
      (by decide) (by decide) 1 2 (by rfl) (by rfl)).2.1,
    (claim_C5_amended host0 stW false false "1" "2" "/src" (by decide)
      (by decide) (by decide) 1 2 (by rfl) (by rfl)).2.2.2.2.1⟩

/-! ## The resource-limit resolver -/

theorem parseRLimit_ten (host : Host) (res mul soft hard : Nat)
    (hq : host.getrlimit64 res = some (soft, hard)) :
    parseRLimit host res "10" mul = some (10 * mul % 2 ^ 64) := by
  have h1 : strcaseEq "10" "inf" = false := by decide
  have h2 : strcaseEq "10" "def" = false := by decide
  have h3 : strcaseEq "10" "soft" = false := by decide
  have h4 : strcaseEq "10" "max" = false := by decide
  have h5 : strcaseEq "10" "hard" = false := by decide
  have h6 : isANumber "10" = true := by decide
  have hstc : strtoullC "10" = (10, false) := by decide
  simp [parseRLimit, hq, h1, h2, h3, h4, h5, h6, hstc]

/-- C2: `parseRLimit` resolves `inf` to `RLIM64_INFINITY` for every limit
kind (without even querying the host); `def`/`soft` resolve to the current
soft limit and `max`/`hard` to the current hard limit, all
case-insensitively; any other token must be a non-negative integer and is
multiplied by the caller-supplied unit multiplier in `uint64_t`
arithmetic, a non-numeric token failing fatally; and the `parseArgs` call
sites pair each limit kind with its unit — `1024*1024` for the
byte-denominated kinds (address space, core, file size, stack) so that
`--rlimit_as 10` stores `10*1024*1024`, and `1` for the count/time kinds
(cpu, nofile, nproc) so that `--rlimit_cpu 10` stores `10`. -/
theorem claim_C2 :
    (∀ (host : Host) (res mul : Nat) (s : String),
      strcaseEq s "inf" = true →
      parseRLimit host res s mul = some RLIM64_INFINITY) ∧
    (∀ (host : Host) (res mul : Nat) (s : String) (soft hard : Nat),
      host.getrlimit64 res = some (soft, hard) →
      (strcaseEq s "def" = true ∨ strcaseEq s "soft" = true) →
      parseRLimit host res s mul = some soft) ∧
    (∀ (host : Host) (res mul : Nat) (s : String) (soft hard : Nat),
      host.getrlimit64 res = some (soft, hard) →
      (strcaseEq s "max" = true ∨ strcaseEq s "hard" = true) →
      parseRLimit host res s mul = some hard) ∧
    (∀ (host : Host) (res mul : Nat) (s : String) (soft hard : Nat),
      host.getrlimit64 res = some (soft, hard) →
      strcaseEq s "inf" = false → strcaseEq s "def" = false →
      strcaseEq s "soft" = false → strcaseEq s "max" = false →
      strcaseEq s "hard" = false → isANumber s = true →
      parseRLimit host res s mul =
        (if (strtoullC s).1 * mul % 2 ^ 64 = 2 ^ 64 - 1 ∧
            (strtoullC s).2 = true then none
         else some ((strtoullC s).1 * mul % 2 ^ 64))) ∧
    (∀ (host : Host) (res mul : Nat) (s : String),
      strcaseEq s "inf" = false → strcaseEq s "def" = false →
      strcaseEq s "soft" = false → strcaseEq s "max" = false →
      strcaseEq s "hard" = false → isANumber s = false →
      parseRLimit host res s mul = none) ∧
    (∀ (host : Host) (st : PState) (soft hard : Nat),
      host.getrlimit64 RLIMIT_AS = some (soft, hard) →
      stepDir host st 0x0201 "10" =
        .ok ⟨{ st.conf with rl_as := 10 * 1024 * 1024 }, st.tmpfsSz⟩) ∧
    (∀ (host : Host) (st : PState) (soft hard : Nat),
      host.getrlimit64 RLIMIT_CORE = some (soft, hard) →
      stepDir host st 0x0202 "10" =
        .ok ⟨{ st.conf with rl_core := 10 * 1024 * 1024 }, st.tmpfsSz⟩) ∧
    (∀ (host : Host) (st : PState) (soft hard : Nat),
      host.getrlimit64 RLIMIT_CPU = some (soft, hard) →
      stepDir host st 0x0203 "10" =
        .ok ⟨{ st.conf with rl_cpu := 10 }, st.tmpfsSz⟩) ∧
    (∀ (host : Host) (st : PState) (soft hard : Nat),
      host.getrlimit64 RLIMIT_FSIZE = some (soft, hard) →
      stepDir host st 0x0204 "10" =
        .ok ⟨{ st.conf with rl_fsize := 10 * 1024 * 1024 }, st.tmpfsSz⟩) ∧
    (∀ (host : Host) (st : PState) (soft hard : Nat),
      host.getrlimit64 RLIMIT_NOFILE = some (soft, hard) →
      stepDir host st 0x0205 "10" =
        .ok ⟨{ st.conf with rl_nofile := 10 }, st.tmpfsSz⟩) ∧
    (∀ (host : Host) (st : PState) (soft hard : Nat),
      host.getrlimit64 RLIMIT_NPROC = some (soft, hard) →
      stepDir host st 0x0206 "10" =
        .ok ⟨{ st.conf with rl_nproc := 10 }, st.tmpfsSz⟩) ∧
    (∀ (host : Host) (st : PState) (soft hard : Nat),
      host.getrlimit64 RLIMIT_STACK = some (soft, hard) →
      stepDir host st 0x0207 "10" =
        .ok ⟨{ st.conf with rl_stack := 10 * 1024 * 1024 }, st.tmpfsSz⟩) := by
  have hten : (10 : Nat) * (1024 * 1024) % 2 ^ 64 = 10 * 1024 * 1024 := by
    norm_num
  have hone : (10 : Nat) * 1 % 2 ^ 64 = 10 := by norm_num
  refine ⟨?_, ?_, ?_, ?_, ?_, ?_, ?_, ?_, ?_, ?_, ?_, ?_⟩
  · intro host res mul s h
    simp [parseRLimit, h]
  · intro host res mul s soft hard hq h
    have hmap : s.data.map clower = "def".data.map clower ∨
        s.data.map clower = "soft".data.map clower := by
      rcases h with h | h
      · exact Or.inl (by simpa [strcaseEq] using h)
      · exact Or.inr (by simpa [strcaseEq] using h)
    rcases hmap with hm | hm
    · have hinf : strcaseEq s "inf" = false := by
        show (s.data.map clower == "inf".data.map clower) = false
        rw [hm]; decide
      have hds : strcaseEq s "def" = true := by
        show (s.data.map clower == "def".data.map clower) = true
        rw [hm]; decide
      simp [parseRLimit, hq, hinf, hds]
    · have hinf : strcaseEq s "inf" = false := by
        show (s.data.map clower == "inf".data.map clower) = false
        rw [hm]; decide
      have hds : strcaseEq s "soft" = true := by
        show (s.data.map clower == "soft".data.map clower) = true
        rw [hm]; decide
      simp [parseRLimit, hq, hinf, hds]
  · intro host res mul s soft hard hq h
    have hmap : s.data.map clower = "max".data.map clower ∨
        s.data.map clower = "hard".data.map clower := by
      rcases h with h | h
      · exact Or.inl (by simpa [strcaseEq] using h)
      · exact Or.inr (by simpa [strcaseEq] using h)
    rcases hmap with hm | hm
    · have hinf : strcaseEq s "inf" = false := by
        show (s.data.map clower == "inf".data.map clower) = false
        rw [hm]; decide
      have hdef : strcaseEq s "def" = false := by
        show (s.data.map clower == "def".data.map clower) = false
        rw [hm]; decide
      have hsoft : strcaseEq s "soft" = false := by
        show (s.data.map clower == "soft".data.map clower) = false
        rw [hm]; decide
      have hds : strcaseEq s "max" = true := by
        show (s.data.map clower == "max".data.map clower) = true
        rw [hm]; decide
      simp [parseRLimit, hq, hinf, hdef, hsoft, hds]
    · have hinf : strcaseEq s "inf" = false := by
        show (s.data.map clower == "inf".data.map clower) = false
        rw [hm]; decide
      have hdef : strcaseEq s "def" = false := by
        show (s.data.map clower == "def".data.map clower) = false
        rw [hm]; decide
      have hsoft : strcaseEq s "soft" = false := by
        show (s.data.map clower == "soft".data.map clower) = false
        rw [hm]; decide
      have hds : strcaseEq s "hard" = true := by
        show (s.data.map clower == "hard".data.map clower) = true
        rw [hm]; decide
      simp [parseRLimit, hq, hinf, hdef, hsoft, hds]
  · intro host res mul s soft hard hq hinf hdef hsoft hmax hhard hnum
    simp [parseRLimit, hq, hinf, hdef, hsoft, hmax, hhard, hnum]
  · intro host res mul s hinf hdef hsoft hmax hhard hnum
    cases hrl : host.getrlimit64 res with
    | none => simp [parseRLimit, hrl, hinf]
    | some cur =>
      simp [parseRLimit, hrl, hinf, hdef, hsoft, hmax, hhard, hnum]
  · intro host st soft hard hq
    have : stepDir host st 0x0201 "10" =
        (match parseRLimit host RLIMIT_AS "10" (1024 * 1024) with
         | some v => .ok ⟨{ st.conf with rl_as := v }, st.tmpfsSz⟩
         | none => .error .fatal) := rfl
    rw [this, parseRLimit_ten host RLIMIT_AS (1024 * 1024) soft hard hq,
      hten]
  · intro host st soft hard hq
    have : stepDir host st 0x0202 "10" =
        (match parseRLimit host RLIMIT_CORE "10" (1024 * 1024) with
         | some v => .ok ⟨{ st.conf with rl_core := v }, st.tmpfsSz⟩
         | none => .error .fatal) := rfl
    rw [this, parseRLimit_ten host RLIMIT_CORE (1024 * 1024) soft hard hq,
      hten]
  · intro host st soft hard hq
    have : stepDir host st 0x0203 "10" =
        (match parseRLimit host RLIMIT_CPU "10" 1 with
         | some v => .ok ⟨{ st.conf with rl_cpu := v }, st.tmpfsSz⟩
         | none => .error .fatal) := rfl
    rw [this, parseRLimit_ten host RLIMIT_CPU 1 soft hard hq, hone]
  · intro host st soft hard hq
    have : stepDir host st 0x0204 "10" =
        (match parseRLimit host RLIMIT_FSIZE "10" (1024 * 1024) with
         | some v => .ok ⟨{ st.conf with rl_fsize := v }, st.tmpfsSz⟩
         | none => .error .fatal) := rfl
    rw [this, parseRLimit_ten host RLIMIT_FSIZE (1024 * 1024) soft hard hq,
      hten]
  · intro host st soft hard hq
    have : stepDir host st 0x0205 "10" =
        (match parseRLimit host RLIMIT_NOFILE "10" 1 with
         | some v => .ok ⟨{ st.conf with rl_nofile := v }, st.tmpfsSz⟩
         | none => .error .fatal) := rfl
    rw [this, parseRLimit_ten host RLIMIT_NOFILE 1 soft hard hq, hone]
  · intro host st soft hard hq
    have : stepDir host st 0x0206 "10" =
        (match parseRLimit host RLIMIT_NPROC "10" 1 with
         | some v => .ok ⟨{ st.conf with rl_nproc := v }, st.tmpfsSz⟩
         | none => .error .fatal) := rfl
    rw [this, parseRLimit_ten host RLIMIT_NPROC 1 soft hard hq, hone]
  · intro host st soft hard hq
    have : stepDir host st 0x0207 "10" =
        (match parseRLimit host RLIMIT_STACK "10" (1024 * 1024) with
         | some v => .ok ⟨{ st.conf with rl_stack := v }, st.tmpfsSz⟩
         | none => .error .fatal) := rfl
    rw [this, parseRLimit_ten host RLIMIT_STACK (1024 * 1024) soft hard hq,
      hten]

theorem claim_C2_witness :
    strcaseEq "INF" "inf" = true ∧
    parseRLimit host0 RLIMIT_CPU "INF" 1 = some RLIM64_INFINITY ∧
    host0.getrlimit64 RLIMIT_AS = some (100, 200) ∧
    parseRLimit host0 RLIMIT_AS "DEF" (1024 * 1024) = some 100 ∧
    parseRLimit host0 RLIMIT_AS "Hard" (1024 * 1024) = some 200 ∧
    stepDir host0 stW 0x0201 "10" =
      .ok ⟨{ stW.conf with rl_as := 10 * 1024 * 1024 }, stW.tmpfsSz⟩ ∧
    stepDir host0 stW 0x0203 "10" =
      .ok ⟨{ stW.conf with rl_cpu := 10 }, stW.tmpfsSz⟩ ∧
    parseRLimit host0 RLIMIT_AS "abc" (1024 * 1024) = none :=
  ⟨by decide,
    claim_C2.1 host0 RLIMIT_CPU 1 "INF" (by decide),
    by rfl,
    claim_C2.2.1 host0 RLIMIT_AS (1024 * 1024) "DEF" 100 200 (by rfl)
      (Or.inl (by decide)),
    claim_C2.2.2.1 host0 RLIMIT_AS (1024 * 1024) "Hard" 100 200 (by rfl)
      (Or.inr (by decide)),
    claim_C2.2.2.2.2.2.1 host0 stW 100 200 (by rfl),
    claim_C2.2.2.2.2.2.2.2.1 host0 stW 100 200 (by rfl),
    claim_C2.2.2.2.2.1 host0 RLIMIT_AS (1024 * 1024) "abc" (by decide)
      (by decide) (by decide) (by decide) (by decide) (by decide)⟩

/-! ## Reduction helpers for `parseArgs` -/

theorem runDirs_append_ok (host : Host) (ds1 ds2 : List (Nat × String))
    (st st1 : PState) (h : runDirs host st ds1 = .ok st1) :
    runDirs host st (ds1 ++ ds2) = runDirs host st1 ds2 := by
  rw [runDirs_append, h]

theorem parseArgs_ok_init (host : Host) (c0 : Conf)
    (h : initialConf host = some c0) (ds : List (Nat × String))
    (rest : List String) :
    parseArgs host ds rest =
      (match runDirs host ⟨c0, initTmpfsSz⟩ ds with
       | .error e => .error e
       | .ok st => finalize host rest st) := by
  unfold parseArgs
  rw [h]

/-! ## Deprecated aliases, unknown mode letters, error short-circuiting -/

/-- C6 counterexample: the deprecated option `--enable_clone_newcgroup`
carries the `getopt` value `0x408`, which matches no canonical entry, so
`cmdlineUsage` prints no deprecation notice naming a replacement for it —
contradicting the claim that every deprecated entry is followed by such a
notice. -/
theorem claim_C6_cex :
    (⟨"enable_clone_newcgroup", false, 0x0408⟩ : COpt) ∈ deprecated_opts ∧
    deprNotice ⟨"enable_clone_newcgroup", false, 0x0408⟩ = none := by
  exact ⟨by decide, by decide⟩

/-- C6 amended: the four MACVLAN aliases (`--iface`, `--iface_vs_ip`,
`--iface_vs_nm`, `--iface_vs_gw`) carry exactly the `getopt` value of
their canonical replacements (`--macvlan_iface`, `--macvlan_vs_ip`,
`--macvlan_vs_nm`, `--macvlan_vs_gw`), hence decode to the same switch
case, and each is followed in the usage output by a deprecation notice
naming that replacement; `--enable_clone_newcgroup` (value `0x408`)
matches no canonical entry, so no notice is printed for it, and its effect
is to set `clone_newcgroup` back to its default `true`. -/
theorem claim_C6 :
    ((lookupLong "iface").map COpt.val = some 73 ∧
      (lookupLong "macvlan_iface").map COpt.val = some 73) ∧
    ((lookupLong "iface_vs_ip").map COpt.val = some 0x701 ∧
      (lookupLong "macvlan_vs_ip").map COpt.val = some 0x701) ∧
    ((lookupLong "iface_vs_nm").map COpt.val = some 0x702 ∧
      (lookupLong "macvlan_vs_nm").map COpt.val = some 0x702) ∧
    ((lookupLong "iface_vs_gw").map COpt.val = some 0x703 ∧
      (lookupLong "macvlan_vs_gw").map COpt.val = some 0x703) ∧
    deprecated_opts.map deprNotice =
      [some "macvlan_iface", some "macvlan_vs_ip", some "macvlan_vs_nm",
        some "macvlan_vs_gw", none] ∧
    (∀ (host : Host) (st : PState) (a : String),
      stepDir host st 0x0408 a =
        .ok ⟨{ st.conf with clone_newcgroup := true }, st.tmpfsSz⟩) :=
  ⟨⟨by decide, by decide⟩, ⟨by decide, by decide⟩, ⟨by decide, by decide⟩,
    ⟨by decide, by decide⟩, by decide, fun host st a => rfl⟩

/-- C7: a `-M` directive whose value does not start with `l`, `o`, `e` or
`r` fails with the usage error; no successor state exists (so the mode
field keeps whatever value the preceding directives left), and the whole
`parseArgs` returns the usage failure regardless of the directives that
follow. -/
theorem claim_C7 (host : Host) (st : PState) (s : String)
    (h1 : s.data.head? ≠ some 'l') (h2 : s.data.head? ≠ some 'o')
    (h3 : s.data.head? ≠ some 'e') (h4 : s.data.head? ≠ some 'r') :
    stepDir host st 77 s = .error .usage ∧
    (∀ st' : PState, stepDir host st 77 s ≠ .ok st') ∧
    (∀ (ds1 ds2 : List (Nat × String)) (rest : List String) (c0 : Conf)
      (st1 : PState), initialConf host = some c0 →
      runDirs host ⟨c0, initTmpfsSz⟩ ds1 = .ok st1 →
      parseArgs host (ds1 ++ (77, s) :: ds2) rest = .error .usage) := by
  have hstep : ∀ stx : PState, stepDir host stx 77 s = .error .usage := by
    intro stx
    have hred : stepDir host stx 77 s =
        (match s.data with
         | 'l' :: _ =>
           .ok ⟨{ stx.conf with mode := .LISTEN_TCP }, stx.tmpfsSz⟩
         | 'o' :: _ =>
           .ok ⟨{ stx.conf with mode := .STANDALONE_ONCE }, stx.tmpfsSz⟩
         | 'e' :: _ =>
           .ok ⟨{ stx.conf with mode := .STANDALONE_EXECVE }, stx.tmpfsSz⟩
         | 'r' :: _ =>
           .ok ⟨{ stx.conf with mode := .STANDALONE_RERUN }, stx.tmpfsSz⟩
         | _ => .error .usage) := rfl
    rw [hred]
    cases hd : s.data with
    | nil => rfl
    | cons c cs =>
      rw [hd] at h1 h2 h3 h4
      simp only [List.head?_cons, ne_eq, Option.some.injEq] at h1 h2 h3 h4
      split <;> simp_all
  refine ⟨hstep st, ?_, ?_⟩
  · intro st' h
    rw [hstep st] at h
    exact Except.noConfusion h
  · intro ds1 ds2 rest c0 st1 hic hrun
    rw [parseArgs_ok_init host c0 hic,
      runDirs_append_ok host ds1 ((77, s) :: ds2) _ st1 hrun]
    simp only [runDirs]
    rw [hstep st1]

theorem claim_C7_witness :
    ("z".data.head? ≠ some 'l') ∧
    stepDir host0 stW 77 "z" = .error .usage ∧
    parseArgs host0 ([(72, "h")] ++ (77, "z") :: [(68, "/x")]) ["/bin/sh"]
      = .error .usage :=
  ⟨by decide,
    (claim_C7 host0 stW "z" (by decide) (by decide) (by decide)
      (by decide)).1,
    (claim_C7 host0 stW "z" (by decide) (by decide) (by decide)
      (by decide)).2.2 [(72, "h")] [(68, "/x")] ["/bin/sh"]
      ((initialConf host0).getD default)
      ⟨{ (initialConf host0).getD default with hostname := "h" },
        initTmpfsSz⟩ (by rfl) (by rfl)⟩

/-- C8: whenever some directive in the stream fails (with or without usage
display, for any of the failure kinds of the switch), `parseArgs` stops at
that directive: the remaining directives are never processed, the overall
result is exactly that error, and no configuration is ever returned. -/
theorem claim_C8 (host : Host) (ds1 ds2 : List (Nat × String))
    (d : Nat × String) (rest : List String) (c0 : Conf) (st1 : PState)
    (e : PErr) (hic : initialConf host = some c0)
    (hrun : runDirs host ⟨c0, initTmpfsSz⟩ ds1 = .ok st1)
    (hfail : stepDir host st1 d.1 d.2 = .error e) :
    parseArgs host (ds1 ++ d :: ds2) rest = .error e ∧
    ∀ conf : Conf, parseArgs host (ds1 ++ d :: ds2) rest ≠ .ok conf := by
  have hmain : parseArgs host (ds1 ++ d :: ds2) rest = .error e := by
    rw [parseArgs_ok_init host c0 hic,
      runDirs_append_ok host ds1 (d :: ds2) _ st1 hrun]
    rcases d with ⟨c, a⟩
    simp only [runDirs]
    rw [hfail]
  exact ⟨hmain, fun conf h => by
    rw [hmain] at h; exact Except.noConfusion h⟩

/-- Initial configuration produced on the concrete host. -/
def c0W : Conf := (initialConf host0).getD default

theorem claim_C8_witness :
    initialConf host0 = some c0W ∧
    stepDir host0 ⟨{ c0W with hostname := "h" }, initTmpfsSz⟩ 9999 ""
      = .error .usage ∧
    parseArgs host0 ([(72, "h")] ++ (9999, "") :: [(68, "/x")])
      ["/bin/sh"] = .error .usage :=
  ⟨by rfl, by rfl,
    (claim_C8 host0 [(72, "h")] [(68, "/x")] (9999, "") ["/bin/sh"] c0W
      ⟨{ c0W with hostname := "h" }, initTmpfsSz⟩ .usage (by rfl) (by rfl)
      (by rfl)).1⟩

/-- C9: in the option table, `--cgroup_cpu_mount` and
`--cgroup_net_cls_mount` share the directive value `0x822`; consequently
`--cgroup_cpu_mount PATH` assigns `PATH` to the net_cls cgroup mount-path
field and leaves the cpu cgroup mount-path at its default
`/sys/fs/cgroup/cpu`, while the `0x832` switch case is unreachable from
the table. -/
theorem claim_C9 :
    lookupLong "cgroup_cpu_mount" =
      some ⟨"cgroup_cpu_mount", true, 0x0822⟩ ∧
    lookupLong "cgroup_net_cls_mount" =
      some ⟨"cgroup_net_cls_mount", true, 0x0822⟩ ∧
    (∀ o ∈ optsAll, o.val ≠ 0x0832) ∧
    (∀ (host : Host) (st : PState) (a : String),
      stepDir host st 0x0822 a =
        .ok ⟨{ st.conf with cgroup_net_cls_mount := a }, st.tmpfsSz⟩ ∧
      ({ st.conf with cgroup_net_cls_mount := a }).cgroup_cpu_mount =
        st.conf.cgroup_cpu_mount) ∧
    (∀ (host : Host) (c0 : Conf), initialConf host = some c0 →
      c0.cgroup_cpu_mount = "/sys/fs/cgroup/cpu") := by
  refine ⟨by decide, by decide, by decide,
    fun host st a => ⟨rfl, rfl⟩, ?_⟩
  intro host c0 h
  exact (initialConf_fields host c0 h).2.2.2.2.2.1

theorem claim_C9_witness :
    initialConf host0 = some c0W ∧
    c0W.cgroup_cpu_mount = "/sys/fs/cgroup/cpu" :=
  ⟨by rfl, claim_C9.2.2.2.2 host0 c0W (by rfl)⟩

/-- C10: the `-p`/`--port` directive sets the port and forces the mode to
`MODE_LISTEN_TCP`, overriding whatever mode the state held; a later valid
`-M` directive (here `-M o`) overwrites the mode again — scalar fields are
last-write-wins in command-line order. -/
theorem claim_C10 (host : Host) (st : PState) (a : String) :
    stepDir host st 112 a =
      .ok ⟨{ st.conf with port := strtoul0 a, mode := .LISTEN_TCP },
        st.tmpfsSz⟩ ∧
    stepDir host
      ⟨{ st.conf with port := strtoul0 a, mode := .LISTEN_TCP },
        st.tmpfsSz⟩ 77 "o" =
      .ok ⟨{ st.conf with port := strtoul0 a, mode := .STANDALONE_ONCE },
        st.tmpfsSz⟩ :=
  ⟨rfl, rfl⟩

end NsjailCmdline
